import Mathlib

/-!
Shallow embedding of the synchronization core of the vibes client.

Source files embedded here:
  - App component (session guardian, profile resolver, startup watchdog,
    logout): src/unnamed/part_000
  - entry point / storage clearing: src/unnamed/part_001
  - MainApp component (event synchronizer, chat synchronizer):
    src/MainApp.tsx

Remote calls are modelled by passing the remote outcome as an explicit
parameter; each handler returns the list of observable actions it performs
(alerts, console logging, storage clears, remote reads and writes, sign-out,
navigation) together with the updated client state.
-/

namespace Vibex

/-! ## Data model (src/types.ts is not in the repository snapshot; the field
sets below are those the embedded code reads and writes) -/

/-- The local profile record of the user model: username, bio, privacy. -/
structure Profile where
  username : String
  bio : String
  privacy : String
  deriving DecidableEq, Repr

/-- A row of the remote profiles collection: id plus the profile fields. -/
structure ProfileRow where
  id : String
  username : String
  bio : String
  privacy : String
  deriving DecidableEq, Repr

/-- Drop the id column of a profiles row to obtain the local profile model,
as done when the App component populates currentUser. -/
def rowProfile (r : ProfileRow) : Profile :=
  { username := r.username, bio := r.bio, privacy := r.privacy }

/-- The local user model: id, email and resolved profile. -/
structure User where
  id : String
  email : String
  profile : Profile
  deriving DecidableEq, Repr

/-- Event status: the client only ever writes active and closed. -/
inductive EventStatus
  | active
  | closed
  deriving DecidableEq, Repr

/-- An event (Vibe) row as the client reads it. Coordinates are inert data
for every claim and are carried as integers; the joined creator username is
presentation-only and omitted. -/
structure Event where
  id : Nat
  creator_id : String
  title : String
  lat : Int
  lng : Int
  status : EventStatus
  duration : Nat
  participants : List String
  deriving DecidableEq, Repr

/-- The descriptive payload supplied by the create-event modal
(Omit of id, creator, creator_id, lat, lng, participants). Only duration and
a representative descriptive field matter to the embedded logic. -/
structure EventData where
  title : String
  duration : Nat
  deriving DecidableEq, Repr

/-- The row handleCreateEvent inserts into the events collection: the modal
data spread together with status active, the clicked coordinates, the
creator id, and participants initialised to the creator alone
(src/MainApp.tsx lines 175-184). The id is assigned remotely. -/
structure EventInsert where
  creator_id : String
  title : String
  lat : Int
  lng : Int
  status : EventStatus
  duration : Nat
  participants : List String
  deriving DecidableEq, Repr

/-- The insert payload built by handleCreateEvent. -/
def insertRow (d : EventData) (coords : Int × Int) (uid : String) : EventInsert :=
  { creator_id := uid, title := d.title, lat := coords.1, lng := coords.2,
    status := EventStatus.active, duration := d.duration, participants := [uid] }

/-- The stored row the remote store materialises from an insert, with the
freshly assigned id. -/
def materialize (r : EventInsert) (newId : Nat) : Event :=
  { id := newId, creator_id := r.creator_id, title := r.title, lat := r.lat,
    lng := r.lng, status := r.status, duration := r.duration,
    participants := r.participants }

/-- A chat message as held in the local ordered log, with the enriched
sender display name. -/
structure VibeMessage where
  id : Nat
  event_id : Nat
  sender_id : String
  text : String
  senderName : String
  deriving DecidableEq, Repr

/-- The payload of a pushed messages insert: it carries the sender id but
not the joined username (src/MainApp.tsx lines 128-147). -/
structure MessagePayload where
  id : Nat
  event_id : Nat
  sender_id : String
  text : String
  deriving DecidableEq, Repr

/-- Signup metadata attached to the authenticated user
(user_metadata in src/unnamed/part_000 lines 43-52). -/
structure AuthMetadata where
  username : Option String
  bio : Option String
  privacy : Option String
  deriving DecidableEq, Repr

/-- The authenticated user object delivered by the auth collaborator. -/
structure AuthUser where
  id : String
  email : String
  aud : String
  user_metadata : AuthMetadata
  deriving DecidableEq, Repr

/-- Outcome of one remote call: a row (or rows) on success, an error message
on failure. -/
inductive FetchResult (α : Type)
  | ok (a : α)
  | err (msg : String)
  deriving DecidableEq, Repr

/-- Outcome of auth getSession as the visibility handler reads it
(src/unnamed/part_000 lines 135-138): a fetch error, no session, or a
session resolving to a remote user id. -/
inductive SessionFetch
  | fetchError
  | noSession
  | session (userId : String)
  deriving DecidableEq, Repr

/-- Observable actions performed by the embedded handlers. -/
inductive Action
  | alert (msg : String)
  | consoleError
  | clearLocalStorage
  | clearSessionStorage
  | signOut
  | locationReload
  | locationHref (path : String)
  | remoteUpdateParticipants (eventId : Nat) (ps : List String)
  | remoteUpdateDuration (eventId : Nat) (d : Nat)
  | remoteUpdateStatus (eventId : Nat) (s : EventStatus)
  | remoteInsertEvent (r : EventInsert)
  | remoteInsertMessage (text : String) (senderId : String) (eventId : Nat)
  | delayedLogout (ms : Nat)
  deriving DecidableEq, Repr

/-- Whether an action is a remote data call (insert or update). -/
def Action.isRemoteCall : Action → Bool
  | Action.remoteUpdateParticipants _ _ => true
  | Action.remoteUpdateDuration _ _ => true
  | Action.remoteUpdateStatus _ _ => true
  | Action.remoteInsertEvent _ => true
  | Action.remoteInsertMessage _ _ _ => true
  | _ => false

/-! ## Helpers for the JavaScript idioms the source uses -/

/-- JavaScript a || b over an optional string: undefined and the empty
string are falsy and fall through to the default. -/
def jsOrElse : Option String → String → String
  | none, d => d
  | some s, d => if s = "" then d else s

/-- Substring test over character lists, used to embed
message.includes(...). -/
def listContains (needle : List Char) : List Char → Bool
  | [] => needle.isEmpty
  | c :: rest => List.isPrefixOf needle (c :: rest) || listContains needle rest

/-- The auth-error test applied to every remote error message:
message.includes("JWT") || message.includes("session")
(src/MainApp.tsx, every handler). -/
def isAuthError (msg : String) : Bool :=
  listContains "JWT".data msg.data || listContains "session".data msg.data

/-! ## App component (src/unnamed/part_000): profile resolver, logout,
visibility-change session validation, startup watchdog -/

/-- loadUserProfile (src/unnamed/part_000 lines 15-77). Inputs: the
authenticated user, the outcome of the profile fetch by id (ok none means
no row found), and the outcome of the fallback insert. Returns the insert
payload the client attempted (none when no insert was attempted) and the
resulting currentUser. -/
def loadUserProfile (au : AuthUser) (profileFetch : FetchResult (Option ProfileRow))
    (insertResult : FetchResult ProfileRow) : Option ProfileRow × Option User :=
  if au.aud ≠ "authenticated" then (none, none)
  else
    match profileFetch with
    | FetchResult.err _ => (none, none)
    | FetchResult.ok (some p) =>
        (none, some { id := au.id, email := au.email, profile := rowProfile p })
    | FetchResult.ok none =>
        match au.user_metadata.username with
        | some uname =>
            -- JavaScript truthiness: an empty username string is falsy
            if uname = "" then (none, none)
            else
              let row : ProfileRow :=
                { id := au.id, username := uname,
                  bio := jsOrElse au.user_metadata.bio "",
                  privacy := jsOrElse au.user_metadata.privacy "public" }
              match insertResult with
              | FetchResult.err _ => (some row, none)
              | FetchResult.ok newP =>
                  (some row,
                   some { id := au.id, email := au.email, profile := rowProfile newP })
        | none => (none, none)

/-- App-level state: the current user and the startup loading flag. -/
structure AppState where
  currentUser : Option User
  loading : Bool
  deriving DecidableEq, Repr

/-- handleLogout (src/unnamed/part_000 lines 107-121): sign out, clear the
durable and the session-scoped storage, and on a sign-out error navigate to
the root. The parameter records whether signOut reported an error. -/
def handleLogout (signOutFails : Bool) : List Action :=
  Action.signOut :: Action.clearLocalStorage :: Action.clearSessionStorage ::
    (if signOutFails then [Action.locationHref "/"] else [])

/-- The blocking alert shown on session validation failure
(src/unnamed/part_000 line 140). -/
def sessionInvalidAlert : String :=
  "Your session has expired or is invalid. The application will now refresh. Please log in again."

/-- The failure test of the visibility handler (src/unnamed/part_000 line
138): error, no session, or remote user id different from the local one. -/
def sessionCheckFails (localUser : User) : SessionFetch → Bool
  | SessionFetch.fetchError => true
  | SessionFetch.noSession => true
  | SessionFetch.session uid => uid ≠ localUser.id

/-- handleVisibilityChange (src/unnamed/part_000 lines 126-153). Runs only
when the document became visible and a user is locally believed logged in;
on a failed check it alerts and performs handleLogout. The resulting
currentUser is none because either the auth-state-change listener observes
the signed-out session (line 97-99) or the error path navigates to the
root; both end in the unauthenticated view. -/
def handleVisibilityChange (visible : Bool) (st : AppState) (fetch : SessionFetch)
    (signOutFails : Bool) : List Action × AppState :=
  if !visible then ([], st)
  else
    match st.currentUser with
    | none => ([], st)
    | some u =>
        if sessionCheckFails u fetch then
          (Action.alert sessionInvalidAlert :: handleLogout signOutFails,
           { st with currentUser := none })
        else ([], st)

/-- The alert shown by the startup watchdog (src/unnamed/part_000 line
181). -/
def watchdogAlert : String :=
  "Application is taking a while to load. We\x27ll perform a quick refresh to resolve any potential issues."

/-- The hard-reset actions of the startup watchdog (src/unnamed/part_000
lines 179-184): alert, clear both storage scopes, reload. After the reload
the entry point (src/unnamed/part_001) clears storage again and the app
restarts unauthenticated. -/
def watchdogActions : List Action :=
  [Action.alert watchdogAlert, Action.clearLocalStorage,
   Action.clearSessionStorage, Action.locationReload]

/-- The startup watchdog (src/unnamed/part_000 lines 174-190): a 10000 ms
timer armed while loading is true; the cleanup cancels it when the initial
getSession step completes (line 89 sets loading false). Input: the time in
milliseconds at which the session was determined, none if never. Output:
the actions the watchdog performs. -/
def loadingWatchdog (sessionDeterminedAt : Option Nat) : List Action :=
  match sessionDeterminedAt with
  | none => watchdogActions
  | some t => if t < 10000 then [] else watchdogActions

/-- The ways a session validation can be triggered while authenticated. -/
inductive ValidationTrigger
  | startup
  | visibilityChange
  | fixedInterval
  deriving DecidableEq, Repr

/-- The session-validation triggers the client registers: the eager
getSession at mount (src/unnamed/part_000 lines 79-90) and the
visibilitychange listener (lines 126-153). The MainApp mount effect only
logs (src/MainApp.tsx lines 44-47, the heartbeat was removed) and no
setInterval exists anywhere in the source, so no fixed-interval trigger is
registered. -/
def registeredValidationTriggers : List ValidationTrigger :=
  [ValidationTrigger.startup, ValidationTrigger.visibilityChange]

/-- The MainApp mount effect (src/MainApp.tsx lines 44-47) performs no
observable action: it only writes a console log. -/
def mainAppMountEffect : List Action := []

/-! ## MainApp component (src/MainApp.tsx): event and chat synchronizers -/

/-- MainApp local state touched by the embedded handlers. -/
structure MainState where
  events : List Event
  activeVibe : Option Event
  isChatVisible : Bool
  chatMessages : List VibeMessage
  error : Option String
  newEventCoords : Option (Int × Int)
  isCreateModalOpen : Bool
  isCreateMode : Bool
  deriving DecidableEq, Repr

/-- The session-expired banner text shared by every auth-error branch. -/
def sessionExpiredMsg : String := "Session expired. Please log in again."

/-- Dismissing the error banner (src/MainApp.tsx line 412): setError(null). -/
def dismissError (st : MainState) : MainState := { st with error := none }

/-- The participants list written by handleJoinVibe (src/MainApp.tsx line
274): append the user id to the last locally-known list. -/
def joinParticipants (ps : List String) (uid : String) : List String := ps ++ [uid]

/-- The participants list written by handleLeaveVibe (src/MainApp.tsx line
303): filter out every occurrence of the user id. -/
def leaveParticipants (ps : List String) (uid : String) : List String :=
  ps.filter (fun p => p ≠ uid)

/-- One successful join or leave by a single user, as its effect on the
participants list. -/
inductive VibeOp
  | join
  | leave
  deriving DecidableEq, Repr

/-- Apply one operation to a participants list. -/
def applyOp (uid : String) (ps : List String) : VibeOp → List String
  | VibeOp.join => joinParticipants ps uid
  | VibeOp.leave => leaveParticipants ps uid

/-- Apply a sequence of operations in order. -/
def applyOps (uid : String) (ps : List String) (ops : List VibeOp) : List String :=
  ops.foldl (applyOp uid) ps

/-- fetchEvents (src/MainApp.tsx lines 53-79), given the outcome of the
remote select of active events. -/
def fetchEvents (sessionValid : Bool) (st : MainState)
    (remote : FetchResult (List Event)) : List Action × MainState :=
  if !sessionValid then ([], st)
  else
    match remote with
    | FetchResult.err msg =>
        if isAuthError msg then
          ([Action.consoleError, Action.delayedLogout 2000],
           { st with error := some sessionExpiredMsg })
        else
          ([Action.consoleError],
           { st with error := some "Failed to load events. Please refresh the page." })
    | FetchResult.ok data => ([], { st with events := data, error := none })

/-- handleCreateEvent (src/MainApp.tsx lines 171-207), given the modal data
and the outcome of the remote insert. -/
def handleCreateEvent (sessionValid : Bool) (user : User) (st : MainState)
    (d : EventData) (remote : FetchResult Event) : List Action × MainState :=
  match st.newEventCoords with
  | none => ([], st)
  | some coords =>
      if !sessionValid then ([], st)
      else
        let row := insertRow d coords user.id
        match remote with
        | FetchResult.err msg =>
            if isAuthError msg then
              ([Action.remoteInsertEvent row, Action.consoleError,
                Action.delayedLogout 2000],
               { st with error := some sessionExpiredMsg })
            else
              ([Action.remoteInsertEvent row, Action.consoleError],
               { st with error := some "Failed to create event. Please try again." })
        | FetchResult.ok newEvent =>
            ([Action.remoteInsertEvent row],
             { st with activeVibe := some newEvent, isCreateModalOpen := false,
                       newEventCoords := none, isCreateMode := false, error := none })

/-- handleCloseEvent (src/MainApp.tsx lines 213-237): update status to
closed; on success, clear the active vibe and hide chat when the closed
event is the local active vibe. -/
def handleCloseEvent (sessionValid : Bool) (st : MainState) (eventId : Nat)
    (remote : FetchResult Unit) : List Action × MainState :=
  if !sessionValid then ([], st)
  else
    match remote with
    | FetchResult.err msg =>
        if isAuthError msg then
          ([Action.remoteUpdateStatus eventId EventStatus.closed, Action.consoleError,
            Action.delayedLogout 2000],
           { st with error := some sessionExpiredMsg })
        else
          ([Action.remoteUpdateStatus eventId EventStatus.closed, Action.consoleError], st)
    | FetchResult.ok _ =>
        ([Action.remoteUpdateStatus eventId EventStatus.closed],
         match st.activeVibe with
         | some v =>
             if v.id = eventId then { st with activeVibe := none, isChatVisible := false }
             else st
         | none => st)

/-- handleExtendEvent (src/MainApp.tsx lines 239-261): look the event up in
the locally cached list, return silently if absent, otherwise write
duration + 15 computed from the cached row. -/
def handleExtendEvent (sessionValid : Bool) (st : MainState) (eventId : Nat)
    (remote : FetchResult Unit) : List Action × MainState :=
  if !sessionValid then ([], st)
  else
    match st.events.find? (fun e => e.id == eventId) with
    | none => ([], st)
    | some event =>
        match remote with
        | FetchResult.err msg =>
            if isAuthError msg then
              ([Action.remoteUpdateDuration eventId (event.duration + 15),
                Action.consoleError, Action.delayedLogout 2000],
               { st with error := some sessionExpiredMsg })
            else
              ([Action.remoteUpdateDuration eventId (event.duration + 15),
                Action.consoleError], st)
        | FetchResult.ok _ =>
            ([Action.remoteUpdateDuration eventId (event.duration + 15)], st)

/-- The alert shown when join is attempted while already in a vibe
(src/MainApp.tsx line 267). -/
def joinRejectAlert : String :=
  "You\x27re already in a Vibe. Please leave it before joining another."

/-- handleJoinVibe (src/MainApp.tsx lines 263-294): reject with an alert if
an active vibe exists, return silently if the event is not cached, else
write participants ++ [user] and adopt the returned row as the active
vibe. -/
def handleJoinVibe (sessionValid : Bool) (user : User) (st : MainState)
    (eventId : Nat) (remote : FetchResult Event) : List Action × MainState :=
  if !sessionValid then ([], st)
  else
    match st.activeVibe with
    | some _ => ([Action.alert joinRejectAlert], st)
    | none =>
        match st.events.find? (fun e => e.id == eventId) with
        | none => ([], st)
        | some event =>
            let ps := joinParticipants event.participants user.id
            match remote with
            | FetchResult.err msg =>
                if isAuthError msg then
                  ([Action.remoteUpdateParticipants eventId ps, Action.consoleError,
                    Action.delayedLogout 2000],
                   { st with error := some sessionExpiredMsg })
                else
                  ([Action.remoteUpdateParticipants eventId ps, Action.consoleError], st)
            | FetchResult.ok data =>
                ([Action.remoteUpdateParticipants eventId ps],
                 { st with activeVibe := some data })

/-- handleLeaveVibe (src/MainApp.tsx lines 296-322): return silently if the
event is not cached, else write the filtered participants and on success
clear the active vibe and hide chat. -/
def handleLeaveVibe (sessionValid : Bool) (user : User) (st : MainState)
    (eventId : Nat) (remote : FetchResult Unit) : List Action × MainState :=
  if !sessionValid then ([], st)
  else
    match st.events.find? (fun e => e.id == eventId) with
    | none => ([], st)
    | some event =>
        let ps := leaveParticipants event.participants user.id
        match remote with
        | FetchResult.err msg =>
            if isAuthError msg then
              ([Action.remoteUpdateParticipants eventId ps, Action.consoleError,
                Action.delayedLogout 2000],
               { st with error := some sessionExpiredMsg })
            else
              ([Action.remoteUpdateParticipants eventId ps, Action.consoleError], st)
        | FetchResult.ok _ =>
            ([Action.remoteUpdateParticipants eventId ps],
             { st with activeVibe := none, isChatVisible := false })

/-- handleSendMessage (src/MainApp.tsx lines 324-346). -/
def handleSendMessage (sessionValid : Bool) (user : User) (st : MainState)
    (text : String) (remote : FetchResult Unit) : List Action × MainState :=
  match st.activeVibe with
  | none => ([], st)
  | some v =>
      if !sessionValid then ([], st)
      else
        match remote with
        | FetchResult.err msg =>
            if isAuthError msg then
              ([Action.remoteInsertMessage text user.id v.id, Action.consoleError,
                Action.delayedLogout 2000],
               { st with error := some sessionExpiredMsg })
            else
              ([Action.remoteInsertMessage text user.id v.id, Action.consoleError], st)
        | FetchResult.ok _ => ([Action.remoteInsertMessage text user.id v.id], st)

/-- The chat push-feed insert callback (src/MainApp.tsx lines 128-151):
enrich the pushed payload with the sender username from the secondary
profile lookup, or with the placeholder Unknown when the lookup fails, and
append the result to the local log. -/
def messageInsertCallback (msgs : List VibeMessage) (p : MessagePayload)
    (lookup : FetchResult String) : List VibeMessage :=
  match lookup with
  | FetchResult.err _ =>
      msgs ++ [{ id := p.id, event_id := p.event_id, sender_id := p.sender_id,
                 text := p.text, senderName := "Unknown" }]
  | FetchResult.ok uname =>
      msgs ++ [{ id := p.id, event_id := p.event_id, sender_id := p.sender_id,
                 text := p.text, senderName := uname }]

/-- Remote-store semantics for the update actions the handlers emit: apply
each matching update to the stored row in order. -/
def applyActions (e : Event) (as : List Action) : Event :=
  as.foldl
    (fun e a =>
      match a with
      | Action.remoteUpdateParticipants i ps =>
          if e.id = i then { e with participants := ps } else e
      | Action.remoteUpdateDuration i d =>
          if e.id = i then { e with duration := d } else e
      | Action.remoteUpdateStatus i s =>
          if e.id = i then { e with status := s } else e
      | _ => e)
    e

/-! ## Concrete single-writer scenario (spec section 8): user A creates
event E with duration 30, user B joins, extend, B leaves, close -/

/-- User A of the scenario. -/
def userA : User :=
  { id := "A", email := "a@example.com",
    profile := { username := "alice", bio := "", privacy := "public" } }

/-- User B of the scenario. -/
def userB : User :=
  { id := "B", email := "b@example.com",
    profile := { username := "bob", bio := "", privacy := "public" } }

/-- An empty MainApp state holding a given events cache. -/
def mkState (evs : List Event) (av : Option Event) : MainState :=
  { events := evs, activeVibe := av, isChatVisible := false, chatMessages := [],
    error := none, newEventCoords := none, isCreateModalOpen := false,
    isCreateMode := false }

/-- Event E as stored after A creates it: the insert payload materialised
with id 1. -/
def eventA0 : Event := materialize (insertRow { title := "picnic", duration := 30 } (3, 4) "A") 1

/-- State of user B before joining: E cached, no active vibe. -/
def stScenario0 : MainState := mkState [eventA0] none

/-- E after the store applies the update emitted by the join of B. -/
def eventA1 : Event :=
  applyActions eventA0 (handleJoinVibe true userB stScenario0 1 (FetchResult.ok eventA0)).1

/-- State of B after the join succeeds and the subscription refetch
delivers the updated row. -/
def stScenario1 : MainState :=
  { (handleJoinVibe true userB stScenario0 1 (FetchResult.ok eventA1)).2 with
      events := [eventA1] }

/-- E after the store applies the extend update. -/
def eventA2 : Event :=
  applyActions eventA1 (handleExtendEvent true stScenario1 1 (FetchResult.ok ())).1

/-- State of B after the extend, with the refetched row. -/
def stScenario2 : MainState :=
  { (handleExtendEvent true stScenario1 1 (FetchResult.ok ())).2 with events := [eventA2] }

/-- E after the store applies the update emitted by the leave of B. -/
def eventA3 : Event :=
  applyActions eventA2 (handleLeaveVibe true userB stScenario2 1 (FetchResult.ok ())).1

/-- State of B after the leave, with the refetched row. -/
def stScenario3 : MainState :=
  { (handleLeaveVibe true userB stScenario2 1 (FetchResult.ok ())).2 with events := [eventA3] }

/-- E after the store applies the close update. -/
def eventA4 : Event :=
  applyActions eventA3 (handleCloseEvent true stScenario3 1 (FetchResult.ok ())).1

/-! ## Theorems -/

/-- C2 counterexample: the claim says session validation is triggered on a
fixed wall-clock interval, but the client registers no fixed-interval
validation: the MainApp heartbeat was removed and no interval timer exists
in the source. -/
theorem fixed_interval_not_registered :
    ValidationTrigger.fixedInterval ∉ registeredValidationTriggers ∧
    mainAppMountEffect = [] := by
  constructor
  · decide
  · rfl

/-- C2 (amended): while a user is authenticated, session validation is
triggered on the document becoming visible and once eagerly at startup;
no fixed-interval trigger is registered. -/
theorem validation_triggers :
    ValidationTrigger.startup ∈ registeredValidationTriggers ∧
    ValidationTrigger.visibilityChange ∈ registeredValidationTriggers ∧
    ValidationTrigger.fixedInterval ∉ registeredValidationTriggers := by
  refine ⟨?_, ?_, ?_⟩ <;> decide

/-- C4: for every participants list and every nonempty sequence of
successful join and leave operations by a single user on a single event,
the user id appears in the resulting participants list iff the last applied
operation was join. -/
theorem last_op_decides_membership (uid : String) (ps : List String)
    (ops : List VibeOp) (h : ops ≠ []) :
    uid ∈ applyOps uid ps ops ↔ ops.getLast? = some VibeOp.join := by
  induction ops using List.reverseRecOn with
  | nil => cases h rfl
  | append_singleton xs op ih =>
      cases op with
      | join =>
          simp [applyOps, List.foldl_append, applyOp, joinParticipants]
      | leave =>
          simp [applyOps, List.foldl_append, applyOp, leaveParticipants,
                List.mem_filter]

/-- C4 witness: after the sequence join, leave, join on the empty list the
user is a member, and the iff is discharged at that concrete input. -/
theorem last_op_decides_membership_witness :
    ("u" ∈ applyOps "u" [] [VibeOp.join, VibeOp.leave, VibeOp.join] ↔
      [VibeOp.join, VibeOp.leave, VibeOp.join].getLast? = some VibeOp.join) :=
  last_op_decides_membership "u" [] [VibeOp.join, VibeOp.leave, VibeOp.join]
    (by decide)

/-- C5: in the single-writer scenario, A creates E with duration 30 and the
row is active with participants [A]; after the join of B the participants
are [A, B] and E is the active vibe of B; after extend the duration is 45;
after the leave of B the participants are [A] and the active vibe of B is
cleared; after close the status is closed, and closing while E is still the
active vibe clears it and hides chat. -/
theorem single_writer_lifecycle :
    eventA0.status = EventStatus.active ∧ eventA0.participants = ["A"] ∧
    eventA0.duration = 30 ∧
    eventA1.participants = ["A", "B"] ∧ stScenario1.activeVibe = some eventA1 ∧
    eventA2.duration = 45 ∧
    eventA3.participants = ["A"] ∧ stScenario3.activeVibe = none ∧
    stScenario3.isChatVisible = false ∧
    eventA4.status = EventStatus.closed ∧
    (handleCloseEvent true stScenario2 1 (FetchResult.ok ())).2.activeVibe = none ∧
    (handleCloseEvent true stScenario2 1 (FetchResult.ok ())).2.isChatVisible = false := by
  decide

/-- C1: every session validation that fails (fetch error, no session, or a
remote user id different from the local identity id) performs the hard
reset: a blocking alert first, then the logout actions clearing the durable
and the session-scoped storage and signing out remotely, and the resulting
state is fully unauthenticated (currentUser none), never a partial
update. -/
theorem session_failure_hard_reset (st : AppState) (u : User)
    (fetch : SessionFetch) (sf : Bool) (hu : st.currentUser = some u)
    (hfail : fetch = SessionFetch.fetchError ∨ fetch = SessionFetch.noSession ∨
      ∃ uid, fetch = SessionFetch.session uid ∧ uid ≠ u.id) :
    (handleVisibilityChange true st fetch sf).1 =
      Action.alert sessionInvalidAlert :: handleLogout sf ∧
    Action.clearLocalStorage ∈ (handleVisibilityChange true st fetch sf).1 ∧
    Action.clearSessionStorage ∈ (handleVisibilityChange true st fetch sf).1 ∧
    Action.signOut ∈ (handleVisibilityChange true st fetch sf).1 ∧
    (handleVisibilityChange true st fetch sf).1.head? =
      some (Action.alert sessionInvalidAlert) ∧
    (handleVisibilityChange true st fetch sf).2.currentUser = none := by
  have hchk : sessionCheckFails u fetch = true := by
    rcases hfail with h | h | ⟨uid, hf, hne⟩
    · subst h; rfl
    · subst h; rfl
    · subst hf; simp [sessionCheckFails, hne]
  refine ⟨?_, ?_, ?_, ?_, ?_, ?_⟩ <;>
    simp [handleVisibilityChange, hu, hchk, handleLogout]

/-- C1 witness: a concrete zombie state with no remote session is hard
reset. -/
theorem session_failure_hard_reset_witness :
    (handleVisibilityChange true { currentUser := some userA, loading := false }
        SessionFetch.noSession false).1 =
      Action.alert sessionInvalidAlert :: handleLogout false ∧
    Action.clearLocalStorage ∈ (handleVisibilityChange true
        { currentUser := some userA, loading := false } SessionFetch.noSession false).1 ∧
    Action.clearSessionStorage ∈ (handleVisibilityChange true
        { currentUser := some userA, loading := false } SessionFetch.noSession false).1 ∧
    Action.signOut ∈ (handleVisibilityChange true
        { currentUser := some userA, loading := false } SessionFetch.noSession false).1 ∧
    (handleVisibilityChange true { currentUser := some userA, loading := false }
        SessionFetch.noSession false).1.head? =
      some (Action.alert sessionInvalidAlert) ∧
    (handleVisibilityChange true { currentUser := some userA, loading := false }
        SessionFetch.noSession false).2.currentUser = none :=
  session_failure_hard_reset _ userA SessionFetch.noSession false rfl
    (Or.inr (Or.inl rfl))

/-- C3: the startup watchdog performs no action when the session is
determined before 10000 ms, and performs the hard-reset actions (alert,
clear of both storage scopes, reload into the unauthenticated entry point)
when the session is never determined or determined at or after 10000
ms. -/
theorem startup_watchdog_behaviour (c : Option Nat) :
    (∀ t, c = some t → t < 10000 → loadingWatchdog c = []) ∧
    ((c = none ∨ ∃ t, c = some t ∧ 10000 ≤ t) →
      loadingWatchdog c = watchdogActions) ∧
    Action.alert watchdogAlert ∈ watchdogActions ∧
    Action.clearLocalStorage ∈ watchdogActions ∧
    Action.clearSessionStorage ∈ watchdogActions ∧
    Action.locationReload ∈ watchdogActions := by
  refine ⟨?_, ?_, ?_, ?_, ?_, ?_⟩
  · rintro t rfl ht
    simp [loadingWatchdog, ht]
  · rintro (rfl | ⟨t, rfl, ht⟩)
    · rfl
    · simp [loadingWatchdog, Nat.not_lt.mpr ht]
  · decide
  · decide
  · decide
  · decide

/-- C3 witness: resolution at 1000 ms does not fire the watchdog;
resolution pending at 20000 ms fires the full reset. -/
theorem startup_watchdog_behaviour_witness :
    loadingWatchdog (some 1000) = [] ∧
    loadingWatchdog (some 20000) = watchdogActions :=
  ⟨(startup_watchdog_behaviour (some 1000)).1 1000 rfl (by decide),
   (startup_watchdog_behaviour (some 20000)).2.1 (Or.inr ⟨20000, rfl, by decide⟩)⟩

/-- C6: a join attempted while an active vibe exists only raises the
rejection alert: the state is returned unchanged and no action of the call
is a remote call. -/
theorem join_rejected_with_active_vibe (u : User) (st : MainState)
    (eventId : Nat) (remote : FetchResult Event) (v : Event)
    (hv : st.activeVibe = some v) :
    handleJoinVibe true u st eventId remote = ([Action.alert joinRejectAlert], st) ∧
    ∀ a ∈ (handleJoinVibe true u st eventId remote).1, a.isRemoteCall = false := by
  have h1 : handleJoinVibe true u st eventId remote =
      ([Action.alert joinRejectAlert], st) := by
    simp [handleJoinVibe, hv]
  refine ⟨h1, ?_⟩
  rw [h1]
  intro a ha
  simp only [List.mem_singleton] at ha
  subst ha
  rfl

/-- C6 witness: user B attempting to join event 1 while already in a vibe
is rejected with the alert alone. -/
theorem join_rejected_with_active_vibe_witness :
    handleJoinVibe true userB (mkState [eventA0] (some eventA0)) 1
        (FetchResult.ok eventA0) =
      ([Action.alert joinRejectAlert], mkState [eventA0] (some eventA0)) ∧
    ∀ a ∈ (handleJoinVibe true userB (mkState [eventA0] (some eventA0)) 1
        (FetchResult.ok eventA0)).1, a.isRemoteCall = false :=
  join_rejected_with_active_vibe userB (mkState [eventA0] (some eventA0)) 1
    (FetchResult.ok eventA0) eventA0 rfl

/-- C7: when the profile fetch returns no row for an authenticated
identity, a truthy username in the signup metadata makes the resolver
insert a row with that username, the metadata bio or empty, and the
metadata privacy or public; on insert success the resolved user carries the
returned profile, on insert failure and likewise when no username is in
the metadata the resolver yields no user. -/
theorem profile_fallback_resolution (au : AuthUser) (ins : FetchResult ProfileRow)
    (haud : au.aud = "authenticated") :
    (∀ uname, au.user_metadata.username = some uname → uname ≠ "" →
      (loadUserProfile au (FetchResult.ok none) ins).1 =
        some { id := au.id, username := uname,
               bio := jsOrElse au.user_metadata.bio "",
               privacy := jsOrElse au.user_metadata.privacy "public" } ∧
      (∀ p, ins = FetchResult.ok p →
        (loadUserProfile au (FetchResult.ok none) ins).2 =
          some { id := au.id, email := au.email, profile := rowProfile p }) ∧
      (∀ m, ins = FetchResult.err m →
        (loadUserProfile au (FetchResult.ok none) ins).2 = none)) ∧
    (au.user_metadata.username = none →
      loadUserProfile au (FetchResult.ok none) ins = (none, none)) := by
  constructor
  · intro uname hu hne
    refine ⟨?_, ?_, ?_⟩
    · cases ins <;> simp [loadUserProfile, haud, hu, hne]
    · rintro p rfl; simp [loadUserProfile, haud, hu, hne]
    · rintro m rfl; simp [loadUserProfile, haud, hu, hne]
  · intro hu
    simp [loadUserProfile, haud, hu]

/-- The authenticated identity of the spec scenario whose signup metadata
carries the username zoe and nothing else. -/
def authZoe : AuthUser :=
  { id := "id-zoe", email := "zoe@example.com", aud := "authenticated",
    user_metadata := { username := some "zoe", bio := none, privacy := none } }

/-- The profiles row created for authZoe. -/
def rowZoe : ProfileRow :=
  { id := "id-zoe", username := "zoe", bio := "", privacy := "public" }

/-- C7 witness: the zoe scenario creates the row with empty bio and public
privacy and resolves to a populated identity. -/
theorem profile_fallback_resolution_witness :
    (loadUserProfile authZoe (FetchResult.ok none) (FetchResult.ok rowZoe)).1 =
      some rowZoe ∧
    (loadUserProfile authZoe (FetchResult.ok none) (FetchResult.ok rowZoe)).2 =
      some { id := "id-zoe", email := "zoe@example.com",
             profile := rowProfile rowZoe } :=
  ⟨((profile_fallback_resolution authZoe (FetchResult.ok rowZoe) rfl).1 "zoe" rfl
      (by decide)).1,
   ((profile_fallback_resolution authZoe (FetchResult.ok rowZoe) rfl).1 "zoe" rfl
      (by decide)).2.1 rowZoe rfl⟩

/-- C8: the chat push-feed insert callback always appends exactly one
message carrying the payload data to the end of the log, and when the
sender lookup fails the appended message carries the placeholder sender
name Unknown; no delivered message is dropped. -/
theorem push_insert_never_dropped (msgs : List VibeMessage) (p : MessagePayload)
    (lookup : FetchResult String) :
    (∃ m, messageInsertCallback msgs p lookup = msgs ++ [m] ∧
      m.text = p.text ∧ m.sender_id = p.sender_id ∧ m.event_id = p.event_id ∧
      (∀ e, lookup = FetchResult.err e → m.senderName = "Unknown")) ∧
    (messageInsertCallback msgs p lookup).length = msgs.length + 1 := by
  cases lookup with
  | ok uname =>
      refine ⟨⟨_, rfl, rfl, rfl, rfl, ?_⟩, by simp [messageInsertCallback]⟩
      intro e h
      cases h
  | err m =>
      refine ⟨⟨_, rfl, rfl, rfl, rfl, ?_⟩, by simp [messageInsertCallback]⟩
      intro e _
      rfl

/-- C8 witness: a pushed insert whose sender lookup fails is still appended,
with the placeholder name. -/
theorem push_insert_never_dropped_witness :
    (∃ m, messageInsertCallback []
        { id := 7, event_id := 1, sender_id := "B", text := "hi" }
        (FetchResult.err "boom") = [] ++ [m] ∧
      m.text = "hi" ∧ m.sender_id = "B" ∧ m.event_id = 1 ∧
      (∀ e, (FetchResult.err "boom" : FetchResult String) = FetchResult.err e →
        m.senderName = "Unknown")) ∧
    (messageInsertCallback [] { id := 7, event_id := 1, sender_id := "B", text := "hi" }
        (FetchResult.err "boom")).length = List.length ([] : List VibeMessage) + 1 :=
  push_insert_never_dropped [] { id := 7, event_id := 1, sender_id := "B", text := "hi" }
    (FetchResult.err "boom")

/-- C9 counterexample: a non-auth remote failure of extend (message
"network error") produces no error banner: the error field stays none,
contradicting the claim that every non-auth remote failure is surfaced as a
dismissible banner. -/
theorem nonauth_extend_error_silent :
    isAuthError "network error" = false ∧
    (handleExtendEvent true (mkState [eventA0] none) 1
        (FetchResult.err "network error")).2.error = none := by
  decide

/-- C9 (amended): a non-auth remote failure of the events fetch or of event
creation is surfaced as a dismissible non-fatal banner; a non-auth remote
failure of join, leave, extend, close or send-message is logged only; in
every case the operation does not apply locally (the state other than the
banner is unchanged). -/
theorem nonauth_error_surfacing (st : MainState) (u : User) (msg : String)
    (eid : Nat) (d : EventData) (txt : String)
    (hna : isAuthError msg = false) :
    (fetchEvents true st (FetchResult.err msg)).2.error =
      some "Failed to load events. Please refresh the page." ∧
    (fetchEvents true st (FetchResult.err msg)).2.events = st.events ∧
    (dismissError (fetchEvents true st (FetchResult.err msg)).2).error = none ∧
    (∀ c, st.newEventCoords = some c →
      (handleCreateEvent true u st d (FetchResult.err msg)).2.error =
        some "Failed to create event. Please try again." ∧
      (handleCreateEvent true u st d (FetchResult.err msg)).2.activeVibe =
        st.activeVibe) ∧
    (handleJoinVibe true u st eid (FetchResult.err msg)).2 = st ∧
    (handleLeaveVibe true u st eid (FetchResult.err msg)).2 = st ∧
    (handleExtendEvent true st eid (FetchResult.err msg)).2 = st ∧
    (handleCloseEvent true st eid (FetchResult.err msg)).2 = st ∧
    (handleSendMessage true u st txt (FetchResult.err msg)).2 = st := by
  refine ⟨?_, ?_, ?_, ?_, ?_, ?_, ?_, ?_, ?_⟩
  · simp [fetchEvents, hna]
  · simp [fetchEvents, hna]
  · simp [dismissError]
  · rintro c hc
    constructor <;> simp [handleCreateEvent, hc, hna]
  · cases hav : st.activeVibe <;>
      cases hf : st.events.find? (fun e => e.id == eid) <;>
        simp [handleJoinVibe, hav, hf, hna]
  · cases hf : st.events.find? (fun e => e.id == eid) <;>
      simp [handleLeaveVibe, hf, hna]
  · cases hf : st.events.find? (fun e => e.id == eid) <;>
      simp [handleExtendEvent, hf, hna]
  · simp [handleCloseEvent, hna]
  · cases hav : st.activeVibe <;> simp [handleSendMessage, hav, hna]

/-- C9 witness: at the concrete non-auth message "network error" the fetch
failure raises the banner and a failed extend leaves the state unchanged. -/
theorem nonauth_error_surfacing_witness :
    isAuthError "network error" = false ∧
    (fetchEvents true (mkState [eventA0] none) (FetchResult.err "network error")).2.error =
      some "Failed to load events. Please refresh the page." ∧
    (handleExtendEvent true (mkState [eventA0] none) 1
        (FetchResult.err "network error")).2 = mkState [eventA0] none :=
  ⟨by decide,
   (nonauth_error_surfacing (mkState [eventA0] none) userA "network error" 1
      { title := "t", duration := 30 } "hi" (by decide)).1,
   (nonauth_error_surfacing (mkState [eventA0] none) userA "network error" 1
      { title := "t", duration := 30 } "hi" (by decide)).2.2.2.2.2.2.1⟩

/-- C10 counterexample: a join call with an eventId absent from the cached
events list is not always silent: when an active vibe exists the rejection
alert fires before the lookup, so an error is surfaced to the user. -/
theorem unknown_event_join_not_silent :
    (mkState [] (some eventA0)).events.find? (fun e => e.id == 99) = none ∧
    (handleJoinVibe true userB (mkState [] (some eventA0)) 99
        (FetchResult.ok eventA0)).1 = [Action.alert joinRejectAlert] := by
  decide

/-- C10 (amended): a leave or extend call with an eventId absent from the
cached events list, and a join call with an absent eventId while no active
vibe exists, return silently: no action at all and the state unchanged; a
join with an active vibe raises the rejection alert first instead. -/
theorem unknown_event_silent_noop (u : User) (st : MainState) (eid : Nat)
    (rj : FetchResult Event) (ru : FetchResult Unit)
    (hfind : st.events.find? (fun e => e.id == eid) = none) :
    (st.activeVibe = none → handleJoinVibe true u st eid rj = ([], st)) ∧
    handleLeaveVibe true u st eid ru = ([], st) ∧
    handleExtendEvent true st eid ru = ([], st) := by
  refine ⟨?_, ?_, ?_⟩
  · intro hav
    simp [handleJoinVibe, hav, hfind]
  · simp [handleLeaveVibe, hfind]
  · simp [handleExtendEvent, hfind]

/-- C10 witness: calls naming the absent event 99 against a cache holding
only event 1 are silent no-ops. -/
theorem unknown_event_silent_noop_witness :
    ((mkState [eventA0] none).activeVibe = none →
      handleJoinVibe true userB (mkState [eventA0] none) 99 (FetchResult.ok eventA0) =
        ([], mkState [eventA0] none)) ∧
    handleLeaveVibe true userB (mkState [eventA0] none) 99 (FetchResult.ok ()) =
      ([], mkState [eventA0] none) ∧
    handleExtendEvent true (mkState [eventA0] none) 99 (FetchResult.ok ()) =
      ([], mkState [eventA0] none) :=
  unknown_event_silent_noop userB (mkState [eventA0] none) 99
    (FetchResult.ok eventA0) (FetchResult.ok ()) (by decide)

end Vibex
